import Mathlib

/-!
Shallow embedding of the carousel interaction engine of the
`react-carousel` repository, together with proofs about it.

The embedding translates the state and the transition functions of
`src/components/Carousel/CarouselViewModel.ts`, the rendering helpers of
`src/components/Carousel/CarouselView.tsx`, and the layout calculation of
`src/components/Carousel/Carousel.tsx`.

Conventions of the translation:
* JavaScript numbers holding pixel quantities (`dragStartX`, `dragOffset`,
  widths, coordinates) are modelled as rationals (`ℚ`).
* `currentIndex` is modelled as `Int`, since `goToSlide` accepts arbitrary
  (possibly negative) integers before normalizing.
* The JavaScript remainder operator `%` truncates toward zero; it is
  modelled by `Int.tmod`.
* React's `setState` updater functions become pure functions
  `CarouselState → CarouselState`; the `setTimeout` scheduled by
  `handleDragEnd` and the `requestAnimationFrame` scheduled by the wrap
  effect are modelled explicitly as pending-callback counters/flags that a
  separate step consumes.
-/

namespace ReactCarousel

/-- Mirror of the `CarouselState` record created by `useCarouselViewModel`
(`CarouselViewModel.ts`, lines 16–24). -/
structure CarouselState where
  currentIndex : Int
  isDragging : Bool
  dragStartX : ℚ
  dragOffset : ℚ
  isAutoPlaying : Bool
  isHovered : Bool
  hasDragged : Bool
deriving Repr, DecidableEq

/-- The initial state passed to `useState` (`CarouselViewModel.ts`,
lines 16–24): index 0, not dragging, autoplay on, not hovered. -/
def initialState : CarouselState :=
  { currentIndex := 0
    isDragging := false
    dragStartX := 0
    dragOffset := 0
    isAutoPlaying := true
    isHovered := false
    hasDragged := false }

/-- `goToSlide` (`CarouselViewModel.ts`, lines 31–42): no-op when the item
count is zero, otherwise normalizes the requested index with the JavaScript
expression `((index % totalItems) + totalItems) % totalItems` and resets
`dragOffset` to 0. -/
def goToSlide (totalItems : Nat) (index : Int) (s : CarouselState) : CarouselState :=
  if totalItems = 0 then s
  else
    let normalizedIndex := ((index.tmod totalItems) + totalItems).tmod totalItems
    { s with currentIndex := normalizedIndex, dragOffset := 0 }

/-- `nextSlide` (`CarouselViewModel.ts`, lines 45–55): advances to
`(currentIndex + 1) % totalItems` and resets `dragOffset`. -/
def nextSlide (totalItems : Nat) (s : CarouselState) : CarouselState :=
  if totalItems = 0 then s
  else
    let nextIndex := (s.currentIndex + 1).tmod totalItems
    { s with currentIndex := nextIndex, dragOffset := 0 }

/-- `prevSlide` (`CarouselViewModel.ts`, lines 65–75): moves to
`(currentIndex - 1 + totalItems) % totalItems` and resets `dragOffset`. -/
def prevSlide (totalItems : Nat) (s : CarouselState) : CarouselState :=
  if totalItems = 0 then s
  else
    let prevIndex := (s.currentIndex - 1 + totalItems).tmod totalItems
    { s with currentIndex := prevIndex, dragOffset := 0 }

/-- `handleDragStart` (`CarouselViewModel.ts`, lines 78–87): begins a drag
at coordinate `x`, clearing `dragOffset` and `hasDragged` and pausing
autoplay. -/
def handleDragStart (x : ℚ) (s : CarouselState) : CarouselState :=
  { s with
    isDragging := true
    dragStartX := x
    dragOffset := 0
    hasDragged := false
    isAutoPlaying := false }

/-- `handleDragMove` (`CarouselViewModel.ts`, lines 90–102): no-op unless
dragging; records `dragOffset = x - dragStartX` and latches `hasDragged`
once the movement exceeds 5 pixels. -/
def handleDragMove (x : ℚ) (s : CarouselState) : CarouselState :=
  if !s.isDragging then s
  else
    let offset := x - s.dragStartX
    { s with
      dragOffset := offset
      hasDragged := s.hasDragged || decide (|offset| > 5) }

/-- `handleDragEnd`, state-update part (`CarouselViewModel.ts`,
lines 105–143): no-op unless dragging; commits a slide change when the
drag distance reaches `minDragDistance` (previous slide for a positive
offset, next slide otherwise), always clears `isDragging` and
`dragOffset`, and resumes autoplay unless hovered. -/
def handleDragEnd (minDragDistance : ℚ) (totalItems : Nat) (s : CarouselState) :
    CarouselState :=
  if !s.isDragging then s
  else
    let dragDistance := |s.dragOffset|
    let newIndex :=
      if dragDistance ≥ minDragDistance then
        if s.dragOffset > 0 then
          (s.currentIndex - 1 + totalItems).tmod totalItems
        else
          (s.currentIndex + 1).tmod totalItems
      else s.currentIndex
    { s with
      isDragging := false
      dragOffset := 0
      currentIndex := newIndex
      isAutoPlaying := !s.isHovered }

/-- Condition under which `handleDragEnd` schedules its 100 ms
`setTimeout` that clears `hasDragged` (`CarouselViewModel.ts`,
lines 124–132): the handler must be acting (a drag was in progress) and
`hasDragged` must have been true. -/
def dragEndSchedulesReset (s : CarouselState) : Bool :=
  s.isDragging && s.hasDragged

/-- `toggleAutoPlay` (`CarouselViewModel.ts`, lines 146–155): an enable
request is gated by the hover and drag flags. -/
def toggleAutoPlay (enable : Bool) (s : CarouselState) : CarouselState :=
  { s with isAutoPlaying := enable && !s.isHovered && !s.isDragging }

/-- `setHovered` (`CarouselViewModel.ts`, lines 158–165): entering hover
pauses autoplay; leaving hover resumes it unless a drag is active. -/
def setHovered (hovered : Bool) (s : CarouselState) : CarouselState :=
  { s with
    isHovered := hovered
    isAutoPlaying := if hovered then false else !s.isDragging }

/-! ### Arithmetic facts about the JavaScript remainder -/

/-- For a positive modulus `n`, the truncated remainder is bounded below
by `-n` (it equals the Euclidean remainder for nonnegative dividends and
its negation for negative ones). -/
theorem neg_lt_tmod (i : Int) (n : Nat) (hn : 0 < n) : -(n : Int) < i.tmod n := by
  cases i with
  | ofNat m =>
      have h0 : 0 ≤ (Int.ofNat m).tmod n := Int.tmod_nonneg _ (Int.ofNat_nonneg m)
      have hn' : (0 : Int) < n := by exact_mod_cast hn
      omega
  | negSucc m =>
      have he : (Int.negSucc m).tmod (n : Int) = -(((m + 1) % n : Nat) : Int) := rfl
      have hlt : (m + 1) % n < n := Nat.mod_lt _ hn
      rw [he]
      omega

/-- The JavaScript normalization `((i % n) + n) % n` always lands in
`[0, n)` when `n` is positive. -/
theorem jsNorm_bounds (i : Int) (n : Nat) (hn : 0 < n) :
    0 ≤ ((i.tmod n) + n).tmod n ∧ ((i.tmod n) + n).tmod n < n := by
  have hn' : (0 : Int) < n := by exact_mod_cast hn
  have h2 : 0 ≤ i.tmod n + n := by
    have := neg_lt_tmod i n hn
    omega
  exact ⟨Int.tmod_nonneg _ h2, Int.tmod_lt_of_pos _ hn'⟩

/-- For nonnegative dividends the truncated remainder stays in `[0, n)`. -/
theorem tmod_bounds_of_nonneg (a : Int) (n : Nat) (hn : 0 < n) (ha : 0 ≤ a) :
    0 ≤ a.tmod n ∧ a.tmod n < n := by
  have hn' : (0 : Int) < n := by exact_mod_cast hn
  exact ⟨Int.tmod_nonneg _ ha, Int.tmod_lt_of_pos _ hn'⟩

/-! ### Navigation call sequences (claim C1) -/

/-- The three navigation entry points of the view model. -/
inductive NavOp where
  | goTo (index : Int)
  | next
  | prev
deriving Repr, DecidableEq

/-- Apply one navigation call to a state. -/
def applyNav (totalItems : Nat) (s : CarouselState) : NavOp → CarouselState
  | .goTo i => goToSlide totalItems i s
  | .next => nextSlide totalItems s
  | .prev => prevSlide totalItems s

/-- A single navigation call keeps `currentIndex` inside `[0, N)`. -/
theorem applyNav_index_bounds (N : Nat) (hN : 0 < N) (s : CarouselState)
    (hs : 0 ≤ s.currentIndex ∧ s.currentIndex < N) (op : NavOp) :
    0 ≤ (applyNav N s op).currentIndex ∧ (applyNav N s op).currentIndex < N := by
  have hNe : ¬ (N = 0) := Nat.pos_iff_ne_zero.mp hN
  cases op with
  | goTo i =>
      simpa [applyNav, goToSlide, hNe] using jsNorm_bounds i N hN
  | next =>
      have h1 : 0 ≤ s.currentIndex + 1 := by omega
      simpa [applyNav, nextSlide, hNe] using tmod_bounds_of_nonneg _ N hN h1
  | prev =>
      have h1 : 0 ≤ s.currentIndex - 1 + N := by
        have hN' : (1 : Int) ≤ N := by exact_mod_cast hN
        omega
      simpa [applyNav, prevSlide, hNe] using tmod_bounds_of_nonneg _ N hN h1

/-- Folding any list of navigation calls preserves the index range. -/
theorem foldl_nav_index_bounds (N : Nat) (hN : 0 < N) (ops : List NavOp)
    (s : CarouselState) (hs : 0 ≤ s.currentIndex ∧ s.currentIndex < N) :
    0 ≤ (ops.foldl (applyNav N) s).currentIndex ∧
      (ops.foldl (applyNav N) s).currentIndex < N := by
  induction ops generalizing s with
  | nil => simpa using hs
  | cons op rest ih =>
      exact ih (applyNav N s op) (applyNav_index_bounds N hN s hs op)

/-- C1: for every item count `N ≥ 1` and every finite sequence of
`goToSlide`/`nextSlide`/`prevSlide` calls starting from the initial state,
`currentIndex` remains in `[0, N)`; `goToSlide` normalizes its argument as
`((index % N) + N) % N` (JavaScript remainder) and resets `dragOffset` to
0, so with `N = 5`, `goToSlide (-1)` yields index 4 and `goToSlide 7`
yields index 2. -/
theorem nav_index_in_range (N : Nat) (hN : 1 ≤ N) (ops : List NavOp) :
    (0 ≤ (ops.foldl (applyNav N) initialState).currentIndex ∧
      (ops.foldl (applyNav N) initialState).currentIndex < N) ∧
    (∀ (i : Int) (s : CarouselState),
      (goToSlide N i s).currentIndex = ((i.tmod N) + N).tmod N ∧
      (goToSlide N i s).dragOffset = 0) ∧
    (goToSlide 5 (-1) initialState).currentIndex = 4 ∧
    (goToSlide 5 7 initialState).currentIndex = 2 := by
  have hN' : 0 < N := hN
  have hNe : ¬ (N = 0) := Nat.pos_iff_ne_zero.mp hN'
  refine ⟨?_, ?_, by decide, by decide⟩
  · exact foldl_nav_index_bounds N hN' ops initialState
      (by simp [initialState]; omega)
  · intro i s
    simp [goToSlide, hNe]

/-- Witness for C1 at `N = 5` with the call sequence `[goTo (-1)]`. -/
theorem nav_index_in_range_witness :
    0 ≤ (([NavOp.goTo (-1)]).foldl (applyNav 5) initialState).currentIndex ∧
      (([NavOp.goTo (-1)]).foldl (applyNav 5) initialState).currentIndex < 5 :=
  (nav_index_in_range 5 (by decide) [NavOp.goTo (-1)]).1

/-! ### Frame condition of the navigation operations (claim C10) -/

/-- C10: for every state and item count `N > 0`, each of `goToSlide`,
`nextSlide` and `prevSlide` modifies only `currentIndex` and `dragOffset`
(setting `dragOffset` to 0); `isDragging`, `dragStartX`, `isAutoPlaying`,
`isHovered` and `hasDragged` are left unchanged. -/
theorem nav_frame_condition (N : Nat) (s : CarouselState) (i : Int) (hN : 0 < N) :
    ((goToSlide N i s).isDragging = s.isDragging ∧
      (goToSlide N i s).dragStartX = s.dragStartX ∧
      (goToSlide N i s).isAutoPlaying = s.isAutoPlaying ∧
      (goToSlide N i s).isHovered = s.isHovered ∧
      (goToSlide N i s).hasDragged = s.hasDragged ∧
      (goToSlide N i s).dragOffset = 0) ∧
    ((nextSlide N s).isDragging = s.isDragging ∧
      (nextSlide N s).dragStartX = s.dragStartX ∧
      (nextSlide N s).isAutoPlaying = s.isAutoPlaying ∧
      (nextSlide N s).isHovered = s.isHovered ∧
      (nextSlide N s).hasDragged = s.hasDragged ∧
      (nextSlide N s).dragOffset = 0) ∧
    ((prevSlide N s).isDragging = s.isDragging ∧
      (prevSlide N s).dragStartX = s.dragStartX ∧
      (prevSlide N s).isAutoPlaying = s.isAutoPlaying ∧
      (prevSlide N s).isHovered = s.isHovered ∧
      (prevSlide N s).hasDragged = s.hasDragged ∧
      (prevSlide N s).dragOffset = 0) := by
  have hNe : ¬ (N = 0) := Nat.pos_iff_ne_zero.mp hN
  refine ⟨?_, ?_, ?_⟩ <;> simp [goToSlide, nextSlide, prevSlide, hNe]

/-- Witness for C10 at `N = 5`, the initial state and argument `7`. -/
theorem nav_frame_condition_witness :
    (goToSlide 5 7 initialState).isDragging = initialState.isDragging ∧
      (goToSlide 5 7 initialState).dragStartX = initialState.dragStartX ∧
      (goToSlide 5 7 initialState).isAutoPlaying = initialState.isAutoPlaying ∧
      (goToSlide 5 7 initialState).isHovered = initialState.isHovered ∧
      (goToSlide 5 7 initialState).hasDragged = initialState.hasDragged ∧
      (goToSlide 5 7 initialState).dragOffset = 0 :=
  (nav_frame_condition 5 initialState 7 (by decide)).1

/-! ### Autoplay is never active during a drag (claim C3) -/

/-- All mutating entry points exposed by the view model. -/
inductive Op where
  | goTo (index : Int)
  | next
  | prev
  | dragStart (x : ℚ)
  | dragMove (x : ℚ)
  | dragEnd
  | autoPlay (enable : Bool)
  | hover (hovered : Bool)

/-- Apply one view-model operation to a state. -/
def applyOp (minDragDistance : ℚ) (totalItems : Nat) (s : CarouselState) :
    Op → CarouselState
  | .goTo i => goToSlide totalItems i s
  | .next => nextSlide totalItems s
  | .prev => prevSlide totalItems s
  | .dragStart x => handleDragStart x s
  | .dragMove x => handleDragMove x s
  | .dragEnd => handleDragEnd minDragDistance totalItems s
  | .autoPlay e => toggleAutoPlay e s
  | .hover h => setHovered h s

/-- Every single operation preserves the mutual exclusion of
`isAutoPlaying` and `isDragging`. -/
theorem applyOp_autoplay_drag (minD : ℚ) (N : Nat) (s : CarouselState)
    (hs : (s.isAutoPlaying && s.isDragging) = false) (op : Op) :
    ((applyOp minD N s op).isAutoPlaying && (applyOp minD N s op).isDragging) = false := by
  cases op with
  | goTo i =>
      simp only [applyOp, goToSlide]
      split <;> simpa using hs
  | next =>
      simp only [applyOp, nextSlide]
      split <;> simpa using hs
  | prev =>
      simp only [applyOp, prevSlide]
      split <;> simpa using hs
  | dragStart x => simp [applyOp, handleDragStart]
  | dragMove x =>
      simp only [applyOp, handleDragMove]
      split
      · exact hs
      · simpa using hs
  | dragEnd =>
      simp only [applyOp, handleDragEnd]
      split
      · exact hs
      · simp
  | autoPlay e =>
      simp only [applyOp, toggleAutoPlay]
      cases hd : s.isDragging <;> simp [hd]
  | hover h =>
      simp only [applyOp, setHovered]
      cases hd : s.isDragging <;> cases h <;> simp [hd]

/-- Folding any list of operations preserves the mutual exclusion. -/
theorem foldl_autoplay_drag (minD : ℚ) (N : Nat) (ops : List Op) (s : CarouselState)
    (hs : (s.isAutoPlaying && s.isDragging) = false) :
    (((ops.foldl (applyOp minD N) s).isAutoPlaying &&
      (ops.foldl (applyOp minD N) s).isDragging) = false) := by
  induction ops generalizing s with
  | nil => simpa using hs
  | cons op rest ih =>
      exact ih (applyOp minD N s op) (applyOp_autoplay_drag minD N s hs op)

/-- C3: in every state reachable from the initial state by any sequence of
`goToSlide`, `nextSlide`, `prevSlide`, `handleDragStart`, `handleDragMove`,
`handleDragEnd`, `toggleAutoPlay` and `setHovered`, the flags
`isAutoPlaying` and `isDragging` are never simultaneously true; moreover
`handleDragStart` always forces `isAutoPlaying` to false, `setHovered
false` enables autoplay exactly when no drag is active, and
`toggleAutoPlay true` is gated by the hover and drag flags. -/
theorem autoplay_never_during_drag (minD : ℚ) (N : Nat) (ops : List Op) :
    (((ops.foldl (applyOp minD N) initialState).isAutoPlaying &&
      (ops.foldl (applyOp minD N) initialState).isDragging) = false) ∧
    (∀ (x : ℚ) (s : CarouselState), (handleDragStart x s).isAutoPlaying = false) ∧
    (∀ s : CarouselState, (setHovered false s).isAutoPlaying = !s.isDragging) ∧
    (∀ s : CarouselState,
      (toggleAutoPlay true s).isAutoPlaying = (!s.isHovered && !s.isDragging)) := by
  refine ⟨foldl_autoplay_drag minD N ops initialState (by simp [initialState]), ?_, ?_, ?_⟩
  · intro x s; simp [handleDragStart]
  · intro s; simp [setHovered]
  · intro s; simp [toggleAutoPlay]

/-! ### Drag-end commit boundary (claim C2) -/

/-- C2: when `handleDragEnd` runs while `isDragging` is true, with
`minDragDistance = 40` and an in-range current index for an item count
`N ≥ 1`: if `|dragOffset| ≥ 40` the index commits — to
`(currentIndex + 1) % N` when the offset is negative (forward), to
`(currentIndex - 1 + N) % N` when it is positive (backward); below the
threshold the index is unchanged; in every case `dragOffset` is reset to 0
and `isDragging` to false. -/
theorem dragEnd_commit_boundary (N : Nat) (s : CarouselState) (hN : 1 ≤ N)
    (hdrag : s.isDragging = true) (h0 : 0 ≤ s.currentIndex)
    (hlt : s.currentIndex < N) :
    ((handleDragEnd 40 N s).dragOffset = 0 ∧
      (handleDragEnd 40 N s).isDragging = false) ∧
    (|s.dragOffset| ≥ 40 → s.dragOffset < 0 →
      (handleDragEnd 40 N s).currentIndex = (s.currentIndex + 1) % N) ∧
    (|s.dragOffset| ≥ 40 → 0 < s.dragOffset →
      (handleDragEnd 40 N s).currentIndex = (s.currentIndex - 1 + N) % N) ∧
    (|s.dragOffset| < 40 →
      (handleDragEnd 40 N s).currentIndex = s.currentIndex) := by
  have hNz : (0 : Int) ≤ N := by positivity
  refine ⟨?_, ?_, ?_, ?_⟩
  · simp [handleDragEnd, hdrag]
  · intro habs hneg
    have hnp : ¬ (s.dragOffset > 0) := not_lt.mpr hneg.le
    rw [handleDragEnd]
    simp only [hdrag, Bool.not_true, Bool.false_eq_true, if_false]
    rw [if_pos habs, if_neg hnp, Int.tmod_eq_emod (by omega) hNz]
  · intro habs hpos
    rw [handleDragEnd]
    simp only [hdrag, Bool.not_true, Bool.false_eq_true, if_false]
    rw [if_pos habs, if_pos hpos, Int.tmod_eq_emod (by omega) hNz]
  · intro hsmall
    have hnd : ¬ (|s.dragOffset| ≥ 40) := not_le.mpr hsmall
    rw [handleDragEnd]
    simp only [hdrag, Bool.not_true, Bool.false_eq_true, if_false]
    rw [if_neg hnd]

/-- Witness for C2: in a dragging state with offset exactly −40 the index
commits forward from 0 to `(0 + 1) % 5`, while offset −39.99 leaves it at
0; both applications instantiate `dragEnd_commit_boundary` at `N = 5`. -/
theorem dragEnd_commit_boundary_witness :
    (handleDragEnd 40 5 ⟨0, true, 0, -40, false, false, true⟩).currentIndex =
      (0 + 1) % 5 ∧
    (handleDragEnd 40 5 ⟨0, true, 0, -39.99, false, false, true⟩).currentIndex = 0 :=
  ⟨(dragEnd_commit_boundary 5 ⟨0, true, 0, -40, false, false, true⟩ (by decide) rfl
      (by decide) (by decide)).2.1
      (by rw [abs_of_nonpos (by norm_num)]; norm_num) (by norm_num),
    (dragEnd_commit_boundary 5 ⟨0, true, 0, -39.99, false, false, true⟩ (by decide) rfl
      (by decide) (by decide)).2.2.2
      (by rw [abs_of_nonpos (by norm_num)]; norm_num)⟩

/-! ### Wrap-jump transition suppression (claim C4)

`CarouselView.tsx`, lines 229–255: an effect keyed on
`(currentIndex, isDragging, dragOffset, items.length)` compares the new
index with the `prevIndexRef` ref, disables the CSS transition on a wrap
`(N−1 → 0)` or `(0 → N−1)`, and schedules a `requestAnimationFrame`
callback that re-enables it. -/

/-- State owned by `CarouselView` that the wrap effect reads and writes:
the `prevIndexRef` ref, the `disableTransition` flag, and whether a
`requestAnimationFrame` re-enable callback is pending. -/
structure ViewState where
  prevIndexRef : Nat
  disableTransition : Bool
  pendingReenable : Bool
deriving Repr, DecidableEq

/-- One run of the wrap effect (`CarouselView.tsx`, lines 229–255).
Returns early — leaving every piece of state untouched — when the item
list is empty, a drag is in progress, or the drag offset is nonzero;
otherwise it detects a wrap between `prevIndexRef` and the new index,
disables the transition and schedules the re-enable callback on a wrap,
and finally stores the new index in `prevIndexRef`. -/
def disableTransitionEffect (numItems : Nat) (isDragging : Bool) (dragOffset : ℚ)
    (currentIndex : Nat) (vs : ViewState) : ViewState :=
  if numItems = 0 ∨ isDragging = true ∨ dragOffset ≠ 0 then vs
  else
    let jumpedFromLastToFirst := vs.prevIndexRef = numItems - 1 ∧ currentIndex = 0
    let jumpedFromFirstToLast := vs.prevIndexRef = 0 ∧ currentIndex = numItems - 1
    if jumpedFromLastToFirst ∨ jumpedFromFirstToLast then
      { prevIndexRef := currentIndex, disableTransition := true, pendingReenable := true }
    else
      { vs with prevIndexRef := currentIndex }

/-- The `requestAnimationFrame` callback of the wrap effect
(`CarouselView.tsx`, lines 248–251): on the following frame it re-enables
the transition. -/
def animationFrame (vs : ViewState) : ViewState :=
  if vs.pendingReenable then
    { vs with disableTransition := false, pendingReenable := false }
  else vs

/-- C4: on a committed index change (`isDragging` false, `dragOffset` 0,
previous and new index distinct) from a steady view state, the transition
is disabled for exactly one frame iff the pair of indices is `(N−1, 0)` or
`(0, N−1)`, and the following animation frame re-enables it; a drag in
progress or a nonzero offset makes the effect a no-op. -/
theorem wrap_jump_one_frame (N currentIndex : Nat) (vs : ViewState) (hN : 0 < N)
    (hdt : vs.disableTransition = false) (hpr : vs.pendingReenable = false)
    (hchange : vs.prevIndexRef ≠ currentIndex) :
    ((disableTransitionEffect N false 0 currentIndex vs).disableTransition = true ↔
      ((vs.prevIndexRef = N - 1 ∧ currentIndex = 0) ∨
        (vs.prevIndexRef = 0 ∧ currentIndex = N - 1))) ∧
    (animationFrame
      (disableTransitionEffect N false 0 currentIndex vs)).disableTransition = false ∧
    (∀ (isDragging : Bool) (dragOffset : ℚ), isDragging = true ∨ dragOffset ≠ 0 →
      disableTransitionEffect N isDragging dragOffset currentIndex vs = vs) := by
  have hNe : ¬ (N = 0) := Nat.pos_iff_ne_zero.mp hN
  have hcond : ¬ (N = 0 ∨ false = true ∨ (0 : ℚ) ≠ 0) := by simp [hNe]
  refine ⟨?_, ?_, ?_⟩
  · rw [disableTransitionEffect, if_neg hcond]
    dsimp only
    split
    · simpa
    · rename_i hno
      exact iff_of_false (by simp [hdt]) hno
  · rw [disableTransitionEffect, if_neg hcond]
    dsimp only
    split
    · simp [animationFrame]
    · simp [animationFrame, hpr, hdt]
  · intro isDragging dragOffset h
    rw [disableTransitionEffect, if_pos (Or.inr h)]

/-- Witness for C4 at `N = 3` with a committed change from index 2 to
index 0 (a last-to-first wrap), starting from the steady view state. -/
theorem wrap_jump_one_frame_witness :
    ((disableTransitionEffect 3 false 0 0 ⟨2, false, false⟩).disableTransition = true ↔
      (((2 : Nat) = 3 - 1 ∧ (0 : Nat) = 0) ∨ ((2 : Nat) = 0 ∧ (0 : Nat) = 3 - 1))) ∧
    (animationFrame
      (disableTransitionEffect 3 false 0 0 ⟨2, false, false⟩)).disableTransition = false :=
  ⟨(wrap_jump_one_frame 3 0 ⟨2, false, false⟩ (by decide) rfl rfl (by decide)).1,
    (wrap_jump_one_frame 3 0 ⟨2, false, false⟩ (by decide) rfl rfl (by decide)).2.1⟩

/-! ### The deferred `hasDragged` reset is never cancelled (claim C5)

`handleDragEnd` (`CarouselViewModel.ts`, lines 124–132) schedules
`setTimeout(() => setState({ ...current, hasDragged: false }), 100)` when
`hasDragged` was true, but stores no timeout handle, and `handleDragStart`
(lines 78–87) clears none: a pending reset from an earlier drag keeps
running and fires into a later drag. The timed model counts the scheduled,
not-yet-fired timeouts and lets them fire as an explicit event. -/

/-- View-model state together with the number of scheduled, unfired
100 ms `hasDragged`-reset timeouts. -/
structure TimedState where
  core : CarouselState
  pendingResets : Nat
deriving Repr, DecidableEq

/-- Events of the timed model: the three drag callbacks plus the firing of
one scheduled reset timeout. -/
inductive DragEvent where
  | start (x : ℚ)
  | move (x : ℚ)
  | up
  | fireReset

/-- One step of the timed model. `start` runs `handleDragStart` and —
exactly as the source, which keeps no handle to the timeout — cancels
nothing; `up` runs `handleDragEnd` and schedules a reset when the handler
acted with `hasDragged` set; `fireReset` is the timeout callback running
`setState(current => ({ ...current, hasDragged: false }))`
unconditionally. -/
def stepTimed (minDragDistance : ℚ) (totalItems : Nat) (ts : TimedState) :
    DragEvent → TimedState
  | .start x => { core := handleDragStart x ts.core, pendingResets := ts.pendingResets }
  | .move x => { ts with core := handleDragMove x ts.core }
  | .up =>
      { core := handleDragEnd minDragDistance totalItems ts.core
        pendingResets :=
          ts.pendingResets + (if dragEndSchedulesReset ts.core then 1 else 0) }
  | .fireReset =>
      if ts.pendingResets = 0 then ts
      else
        { core := { ts.core with hasDragged := false }
          pendingResets := ts.pendingResets - 1 }

/-- A drag that latches `hasDragged`, ends (scheduling the 100 ms reset),
and is followed by a second drag that also latches `hasDragged` — all
before the first drag's timeout fires. -/
def staleResetTrace : List DragEvent :=
  [.start 0, .move 10, .up, .start 100, .move 110]

/-- C5 evidence: after `staleResetTrace` the second drag is active with
`hasDragged = true` and one reset timeout from the *first* drag still
pending; letting that stale timeout fire flips `hasDragged` to false while
`isDragging` is still true. The claim (and the spec, §4.1) say a new
`startDrag` cancels the pending reset, so this flip could never happen;
the source stores no timeout handle and cancels nothing. -/
theorem stale_reset_flips_hasDragged_during_drag :
    ((staleResetTrace.foldl (stepTimed 40 3) ⟨initialState, 0⟩).core.isDragging = true ∧
      (staleResetTrace.foldl (stepTimed 40 3) ⟨initialState, 0⟩).core.hasDragged = true ∧
      (staleResetTrace.foldl (stepTimed 40 3) ⟨initialState, 0⟩).pendingResets = 1) ∧
    ((stepTimed 40 3 (staleResetTrace.foldl (stepTimed 40 3) ⟨initialState, 0⟩)
        .fireReset).core.isDragging = true ∧
      (stepTimed 40 3 (staleResetTrace.foldl (stepTimed 40 3) ⟨initialState, 0⟩)
        .fireReset).core.hasDragged = false) := by
  have hm1 : handleDragMove 10 ⟨0, true, 0, 0, false, false, false⟩ =
      ⟨0, true, 0, 10, false, false, true⟩ := by
    rw [handleDragMove]; norm_num
  have hm2 : handleDragMove 110 ⟨0, true, 100, 0, false, false, false⟩ =
      ⟨0, true, 100, 10, false, false, true⟩ := by
    rw [handleDragMove]; norm_num
  have he : handleDragEnd 40 3 ⟨0, true, 0, 10, false, false, true⟩ =
      ⟨0, false, 0, 0, true, false, true⟩ := by
    rw [handleDragEnd]
    norm_num
  have hfold : staleResetTrace.foldl (stepTimed 40 3) ⟨initialState, 0⟩ =
      ⟨⟨0, true, 100, 10, false, false, true⟩, 1⟩ := by
    simp only [staleResetTrace, List.foldl_cons, List.foldl_nil]
    rw [show stepTimed 40 3 ⟨initialState, 0⟩ (.start 0) =
        ⟨⟨0, true, 0, 0, false, false, false⟩, 0⟩ from rfl]
    rw [show stepTimed 40 3 ⟨⟨0, true, 0, 0, false, false, false⟩, 0⟩ (.move 10) =
        ⟨⟨0, true, 0, 10, false, false, true⟩, 0⟩ from by
      simp only [stepTimed]; rw [hm1]]
    rw [show stepTimed 40 3 ⟨⟨0, true, 0, 10, false, false, true⟩, 0⟩ .up =
        ⟨⟨0, false, 0, 0, true, false, true⟩, 1⟩ from by
      simp only [stepTimed]; rw [he]; rfl]
    rw [show stepTimed 40 3 ⟨⟨0, false, 0, 0, true, false, true⟩, 1⟩ (.start 100) =
        ⟨⟨0, true, 100, 0, false, false, false⟩, 1⟩ from rfl]
    simp only [stepTimed]
    rw [hm2]
  rw [hfold]
  refine ⟨⟨rfl, rfl, rfl⟩, ?_, ?_⟩ <;> rw [stepTimed] <;> norm_num

/-! ### Padded rendering sequence and item-count guard (claims C6, C9) -/

/-- `duplicatedItems` (`CarouselView.tsx`, lines 44–52): for a nonempty
item list, `[items[items.length - 1], ...items, items[0],
items[1] || items[0]]` — the `||` falls back to `items[0]` when `items[1]`
is absent; for an empty list, the empty list. -/
def duplicatedItems {α : Type} : List α → List α
  | [] => []
  | a :: rest =>
    let lastItem := (a :: rest).getLast (List.cons_ne_nil a rest)
    let secondItem :=
      match rest with
      | [] => a
      | b :: _ => b
    lastItem :: ((a :: rest) ++ [a, secondItem])

/-- What the `Carousel` component renders: the fallback notice
(`Carousel.tsx`, lines 149–155, "Carousel requires at least 3 items") or
the carousel view with its padded card sequence. -/
inductive RenderOutput (α : Type) where
  | fallback
  | active (cards : List α)
deriving DecidableEq

/-- The render decision of `Carousel` (`Carousel.tsx`, lines 149–192): the
guard `items.length < 3` returns the fallback; otherwise `CarouselView`
renders the padded card sequence. -/
def carouselRender {α : Type} (items : List α) : RenderOutput α :=
  if items.length < 3 then .fallback else .active (duplicatedItems items)

/-- Number of cards appearing in a render output. -/
def renderedCards {α : Type} : RenderOutput α → Nat
  | .fallback => 0
  | .active cards => cards.length

/-- C6: for every item list with fewer than 3 items the component renders
the fallback display instead of activating the carousel, and the render
output contains zero cards. -/
theorem insufficient_items_fallback {α : Type} (items : List α)
    (h : items.length < 3) :
    carouselRender items = RenderOutput.fallback ∧
      renderedCards (carouselRender items) = 0 := by
  rw [carouselRender, if_pos h]
  exact ⟨rfl, rfl⟩

/-- Witness for C6 on the two-item list `[0, 1]`. -/
theorem insufficient_items_fallback_witness :
    carouselRender [0, 1] = RenderOutput.fallback ∧
      renderedCards (carouselRender [(0 : Nat), 1]) = 0 :=
  insufficient_items_fallback [0, 1] (by decide)

/-- Written from the spec's words (§4.3) for comparison with the source's
`duplicatedItems`: a padded sequence `[item[N-1], item[0], …, item[N-1],
item[0]]` with `item[1]` appended only when more than two cards are
simultaneously visible. -/
def paddedSequenceSpec {α : Type} (items : List α) (visibleCount : ℚ) : List α :=
  match items with
  | [] => []
  | a :: rest =>
    let lastItem := (a :: rest).getLast (List.cons_ne_nil a rest)
    let secondItem :=
      match rest with
      | [] => a
      | b :: _ => b
    lastItem :: ((a :: rest) ++ ([a] ++ if visibleCount > 2 then [secondItem] else []))

/-- C9 counterexample: with 3 items and only 2 visible cards the source
still appends `item[1]`, so the rendered padded sequence disagrees with
the spec's conditional padding — `item[1]` is not appended "only if
visibleCount > 2". -/
theorem padded_sequence_counterexample :
    duplicatedItems [0, 1, 2] ≠ paddedSequenceSpec [(0 : Nat), 1, 2] 2 ∧
      duplicatedItems [(0 : Nat), 1, 2] = [2, 0, 1, 2, 0, 1] ∧
      paddedSequenceSpec [(0 : Nat), 1, 2] 2 = [2, 0, 1, 2, 0] := by
  have h2 : ¬ ((2 : ℚ) > 2) := by norm_num
  refine ⟨?_, rfl, ?_⟩
  · rw [duplicatedItems, paddedSequenceSpec]
    simp [h2]
  · rw [paddedSequenceSpec]
    simp [h2]

/-- `getTransform` (`CarouselView.tsx`, lines 83–122): the `translateX`
offset in pixels. On desktop the current card is centered (with a special
case when the current index is the last item); on mobile the layout is
left-aligned. -/
def getTransform (numItems : Nat) (isDesktop : Bool)
    (cardWidth spacing viewportWidth dragOffset : ℚ) (currentIndex : Nat) : ℚ :=
  if numItems = 0 then 0
  else
    let cardWithSpacing := cardWidth + spacing
    if isDesktop then
      let currentCardLeftPosition : ℚ :=
        if currentIndex = numItems - 1 then (numItems : ℚ) * cardWithSpacing
        else ((currentIndex : ℚ) + 1) * cardWithSpacing
      let centerOffset := viewportWidth / 2 - cardWidth / 2
      (-currentCardLeftPosition + centerOffset) + dragOffset
    else
      (-(((currentIndex : ℚ) + 1) * cardWithSpacing)) + dragOffset

/-- The per-card center test of `CarouselView` (`CarouselView.tsx`,
lines 285–297): on desktop, the card at physical slot `currentIndex + 1`
is the center card (slot `numItems` when the current index is the last
item); on mobile no card is marked center. -/
def isCenterCard (numItems : Nat) (isDesktop : Bool) (currentIndex slotIndex : Nat) :
    Bool :=
  if isDesktop then
    if currentIndex = numItems - 1 then slotIndex == numItems
    else slotIndex == currentIndex + 1
  else false

/-- C9 (amended): for every item list with `N ≥ 3`, the rendered padded
sequence is always `[item[N-1], item[0], …, item[N-1], item[0], item[1]]`
— the trailing `item[1]` is appended unconditionally, independent of the
visible-card count — and the logical `currentIndex` maps to physical slot
`currentIndex + 1`, which `getTransform` positions as the active card and
the desktop layout marks as the center card. -/
theorem padded_sequence_structure {α : Type} (items : List α)
    (h3 : 3 ≤ items.length) :
    ((duplicatedItems items).length = items.length + 3 ∧
      (duplicatedItems items).get? 0 = items.get? (items.length - 1) ∧
      (∀ i, i < items.length →
        (duplicatedItems items).get? (i + 1) = items.get? i) ∧
      (duplicatedItems items).get? (items.length + 1) = items.get? 0 ∧
      (duplicatedItems items).get? (items.length + 2) = items.get? 1) ∧
    (∀ (isDesktop : Bool) (cardWidth spacing viewportWidth dragOffset : ℚ)
      (c : Nat), c < items.length →
      getTransform items.length isDesktop cardWidth spacing viewportWidth dragOffset c =
        -(((c : ℚ) + 1) * (cardWidth + spacing)) +
          (if isDesktop then viewportWidth / 2 - cardWidth / 2 else 0) + dragOffset) ∧
    (∀ c slot : Nat, c < items.length →
      (isCenterCard items.length true c slot = true ↔ slot = c + 1)) := by
  obtain ⟨a, rest1, rfl⟩ : ∃ x t, items = x :: t := by
    cases items with
    | nil => simp at h3
    | cons x t => exact ⟨x, t, rfl⟩
  obtain ⟨b, rest2, rfl⟩ : ∃ x t, rest1 = x :: t := by
    cases rest1 with
    | nil => simp at h3
    | cons x t => exact ⟨x, t, rfl⟩
  refine ⟨⟨?_, ?_, ?_, ?_, ?_⟩, ?_, ?_⟩
  · simp [duplicatedItems]
  · rw [duplicatedItems]
    rw [List.get?_eq_get
      (show (a :: b :: rest2).length - 1 < (a :: b :: rest2).length by
        simp only [List.length_cons]; omega)]
    rw [List.getLast_eq_get]
    rfl
  · intro i hi
    rw [duplicatedItems]
    rw [List.get?_cons_succ, List.get?_append hi]
  · rw [duplicatedItems]
    rw [List.get?_cons_succ, List.get?_append_right (Nat.le_refl _)]
    simp
  · rw [duplicatedItems]
    rw [show (a :: b :: rest2).length + 2 = ((a :: b :: rest2).length + 1) + 1 from rfl,
      List.get?_cons_succ, List.get?_append_right (Nat.le_succ _)]
    simp
  · intro d w sp vw off c hc
    have hNe : ¬ ((a :: b :: rest2).length = 0) := by simp
    cases d with
    | false =>
        rw [getTransform, if_neg hNe, if_neg Bool.false_ne_true,
          if_neg Bool.false_ne_true]
        ring
    | true =>
        rw [getTransform, if_neg hNe, if_pos rfl, if_pos rfl]
        by_cases hce : c = (a :: b :: rest2).length - 1
        · rw [if_pos hce]
          have h2 : c + 1 = (a :: b :: rest2).length := by
            simp only [List.length_cons] at hc hce ⊢
            omega
          have h1 : ((c : ℚ) + 1) = ((a :: b :: rest2).length : ℚ) := by
            exact_mod_cast congrArg (fun n : Nat => (n : ℚ)) h2
          rw [← h1]
        · rw [if_neg hce]
  · intro c slot hc
    rw [isCenterCard, if_pos rfl]
    by_cases hce : c = (a :: b :: rest2).length - 1
    · rw [if_pos hce]
      have h2 : (a :: b :: rest2).length = c + 1 := by
        simp only [List.length_cons] at hc hce ⊢
        omega
      simp [h2]
    · rw [if_neg hce]
      simp

/-- Witness for C9 (amended) on the item list `[10, 20, 30]`. -/
theorem padded_sequence_structure_witness :
    (duplicatedItems [(10 : Nat), 20, 30]).length = [(10 : Nat), 20, 30].length + 3 ∧
      (duplicatedItems [(10 : Nat), 20, 30]).get? 0 =
        [(10 : Nat), 20, 30].get? ([(10 : Nat), 20, 30].length - 1) ∧
      (∀ i, i < [(10 : Nat), 20, 30].length →
        (duplicatedItems [(10 : Nat), 20, 30]).get? (i + 1) =
          [(10 : Nat), 20, 30].get? i) ∧
      (duplicatedItems [(10 : Nat), 20, 30]).get? ([(10 : Nat), 20, 30].length + 1) =
        [(10 : Nat), 20, 30].get? 0 ∧
      (duplicatedItems [(10 : Nat), 20, 30]).get? ([(10 : Nat), 20, 30].length + 2) =
        [(10 : Nat), 20, 30].get? 1 :=
  (padded_sequence_structure [(10 : Nat), 20, 30] (by decide)).1

/-! ### Gesture entry points of the view (claim C7)

`CarouselView.tsx`, lines 125–143: `handleStart` sets the `isMouseDownRef`
ref and forwards to the view model's `handleDragStart`; `handleMove` and
`handleEnd` are guarded by the ref. -/

/-- The view's gesture state: the `isMouseDownRef` ref together with the
view-model state the callbacks dispatch into. -/
structure TrackerState where
  isMouseDown : Bool
  vm : CarouselState
deriving Repr, DecidableEq

/-- `handleStart` (`CarouselView.tsx`, lines 125–128): unconditionally
sets the ref and calls `onDragStart` — there is no guard against a drag
that is already active. -/
def handleStart (clientX : ℚ) (t : TrackerState) : TrackerState :=
  { isMouseDown := true, vm := handleDragStart clientX t.vm }

/-- `handleMove` (`CarouselView.tsx`, lines 131–135): forwards to
`onDragMove` only while the ref is set. -/
def handleMove (clientX : ℚ) (t : TrackerState) : TrackerState :=
  if t.isMouseDown then { t with vm := handleDragMove clientX t.vm } else t

/-- `handleEnd` (`CarouselView.tsx`, lines 138–143): clears the ref and
forwards to `onDragEnd` only when the ref was set. -/
def handleEnd (minDragDistance : ℚ) (totalItems : Nat) (t : TrackerState) :
    TrackerState :=
  if t.isMouseDown then
    { isMouseDown := false, vm := handleDragEnd minDragDistance totalItems t.vm }
  else t

/-- C7 counterexample: starting from a state in which a drag is active
(`isDragging = true`, `dragStartX = 0`, `hasDragged = true`), a second
`handleStart` at coordinate 100 is *not* ignored: it restarts the drag,
moving `dragStartX` to 100 and resetting `hasDragged` to false. -/
theorem start_not_ignored_counterexample :
    ((handleMove 10 (handleStart 0 ⟨false, initialState⟩)).vm.isDragging = true ∧
      (handleMove 10 (handleStart 0 ⟨false, initialState⟩)).vm.dragStartX = 0 ∧
      (handleMove 10 (handleStart 0 ⟨false, initialState⟩)).vm.hasDragged = true) ∧
    ((handleStart 100 (handleMove 10 (handleStart 0 ⟨false, initialState⟩))).vm.dragStartX
        = 100 ∧
      (handleStart 100
        (handleMove 10 (handleStart 0 ⟨false, initialState⟩))).vm.hasDragged = false) := by
  have h1 : handleStart 0 ⟨false, initialState⟩ =
      ⟨true, ⟨0, true, 0, 0, false, false, false⟩⟩ := rfl
  have h2 : handleMove 10 (⟨true, ⟨0, true, 0, 0, false, false, false⟩⟩ : TrackerState) =
      ⟨true, ⟨0, true, 0, 10, false, false, true⟩⟩ := by
    rw [handleMove, if_pos rfl]
    rw [show handleDragMove 10 ⟨0, true, 0, 0, false, false, false⟩ =
        ⟨0, true, 0, 10, false, false, true⟩ from by rw [handleDragMove]; norm_num]
  rw [h1, h2]
  refine ⟨⟨rfl, rfl, rfl⟩, rfl, rfl⟩

/-- C7 (amended): `handleStart` during an active drag is not ignored — it
restarts the drag at the new coordinate (setting `dragStartX` to the new
position, clearing `dragOffset` and `hasDragged`, keeping `isDragging`
true and the current index unchanged) — while `handleEnd` is idempotent:
a second call with no intervening `handleStart` is a no-op, and the view
model's `handleDragEnd` itself ignores calls when no drag is active. -/
theorem start_restarts_end_idempotent (minD : ℚ) (N : Nat) (t : TrackerState)
    (x : ℚ) (hactive : t.vm.isDragging = true) :
    ((handleStart x t).vm.isDragging = true ∧
      (handleStart x t).vm.dragStartX = x ∧
      (handleStart x t).vm.dragOffset = 0 ∧
      (handleStart x t).vm.hasDragged = false ∧
      (handleStart x t).vm.currentIndex = t.vm.currentIndex) ∧
    handleEnd minD N (handleEnd minD N t) = handleEnd minD N t ∧
    (∀ s : CarouselState, s.isDragging = false → handleDragEnd minD N s = s) := by
  refine ⟨⟨rfl, rfl, rfl, rfl, rfl⟩, ?_, ?_⟩
  · cases hm : t.isMouseDown with
    | false =>
        have he : handleEnd minD N t = t := by
          rw [handleEnd, if_neg (by simp [hm])]
        rw [he]
        exact he
    | true =>
        have he : handleEnd minD N t = ⟨false, handleDragEnd minD N t.vm⟩ := by
          rw [handleEnd, if_pos hm]
        rw [he, handleEnd, if_neg (by simp)]
  · intro s hs
    rw [handleDragEnd, if_pos (by simp [hs])]

/-- Witness for C7 (amended): a tracker state mid-drag with `dragStartX = 0`
and `hasDragged = true`, restarted at coordinate 100. -/
theorem start_restarts_end_idempotent_witness :
    ((handleStart 100 ⟨true, ⟨0, true, 0, 0, false, false, true⟩⟩).vm.isDragging = true ∧
      (handleStart 100 ⟨true, ⟨0, true, 0, 0, false, false, true⟩⟩).vm.dragStartX = 100 ∧
      (handleStart 100 ⟨true, ⟨0, true, 0, 0, false, false, true⟩⟩).vm.dragOffset = 0 ∧
      (handleStart 100 ⟨true, ⟨0, true, 0, 0, false, false, true⟩⟩).vm.hasDragged = false ∧
      (handleStart 100 ⟨true, ⟨0, true, 0, 0, false, false, true⟩⟩).vm.currentIndex =
        (⟨true, ⟨0, true, 0, 0, false, false, true⟩⟩ : TrackerState).vm.currentIndex) ∧
    handleEnd 40 3 (handleEnd 40 3 ⟨true, ⟨0, true, 0, 0, false, false, true⟩⟩) =
      handleEnd 40 3 ⟨true, ⟨0, true, 0, 0, false, false, true⟩⟩ :=
  ⟨(start_restarts_end_idempotent 40 3 ⟨true, ⟨0, true, 0, 0, false, false, true⟩⟩
      100 rfl).1,
    (start_restarts_end_idempotent 40 3 ⟨true, ⟨0, true, 0, 0, false, false, true⟩⟩
      100 rfl).2.1⟩

/-! ### Responsive layout calculation (claim C8)

`Carousel.tsx`, lines 29–54 (`responsiveSize`) and 88–101
(`calculatedCardWidth`). The `size` prop is a fraction string `"a/b"`,
modelled as a list of characters. JavaScript's
`size.split("/").map(Number)` is modelled by splitting on `'/'` and
parsing runs of decimal digits; `Number` yielding `NaN` on anything else
is modelled as `none`, which is what the `isNaN` guards in the source
check for. -/

/-- Accumulator-passing worker for splitting a character list on `'/'`. -/
def splitOnSlashAux : List Char → List Char → List (List Char)
  | [], acc => [acc.reverse]
  | c :: rest, acc =>
      if c = '/' then acc.reverse :: splitOnSlashAux rest []
      else splitOnSlashAux rest (c :: acc)

/-- Model of `size.split("/")`. -/
def splitOnSlash (cs : List Char) : List (List Char) := splitOnSlashAux cs []

/-- Model of `Number(component)` for the components of a size fraction:
a nonempty run of decimal digits parses to its value, anything else is
`NaN` (`none`). -/
def parseDigits (cs : List Char) : Option Nat :=
  if cs = [] then none
  else
    cs.foldl
      (fun acc? c =>
        match acc? with
        | none => none
        | some acc =>
            if c.isDigit then some (acc * 10 + (c.toNat - '0'.toNat)) else none)
      (some 0)

/-- `responsiveSize` (`Carousel.tsx`, lines 29–54): with an explicit
`cardWidth` or no screen width available, the caller's `size` prop is
used; otherwise the screen-width breakpoints force `"1/1"` below 640,
`"2/3"` in 640–768, `"1/2"` in 768–1024, and the prop at 1024 and
above. -/
def responsiveSize (cardWidth? : Option ℚ) (screenWidth? : Option ℚ)
    (propSize : List Char) : List Char :=
  match cardWidth? with
  | some _ => propSize
  | none =>
    match screenWidth? with
    | none => propSize
    | some screenWidth =>
      if screenWidth < 640 then ['1', '/', '1']
      else if screenWidth < 768 then ['2', '/', '3']
      else if screenWidth < 1024 then ['1', '/', '2']
      else propSize

/-- `calculatedCardWidth` (`Carousel.tsx`, lines 88–101): an explicit
`cardWidth` short-circuits everything; otherwise the size fraction is
split on `"/"`, unparsable components or a zero denominator fall back to
the default width 300, and the width is the viewport minus the inter-card
spacing divided by the *denominator*. -/
def calculatedCardWidth (cardWidth? : Option ℚ) (size : List Char)
    (spacing viewportWidth : ℚ) : ℚ :=
  match cardWidth? with
  | some w => w
  | none =>
    let parts := (splitOnSlash size).map parseDigits
    match parts.get? 0, parts.get? 1 with
    | some (some _numerator), some (some denominator) =>
        if denominator = 0 then 300
        else
          let numberOfItems := denominator
          let totalSpacing := spacing * ((numberOfItems : ℚ) - 1)
          let availableWidth := viewportWidth - totalSpacing
          availableWidth / (denominator : ℚ)
    | _, _ => 300

/-- C8 evidence: at screen width 700 (the 640–768 bucket) with no
explicit `cardWidth`, spacing 0 and viewport width 700, the source picks
size `"2/3"` but then computes a card width of `700 / 3`, so exactly
`700 / (700/3) = 3` full cards fit in the viewport — not the 1.5 cards
the claim (and the source's own comment "show 1.5 items") promises. The
other breakpoint buckets match the claim: `"1/1"` gives 1 visible card
and `"1/2"` gives 2. -/
theorem tablet_breakpoint_three_cards :
    responsiveSize none (some 700) ['1', '/', '3'] = ['2', '/', '3'] ∧
    calculatedCardWidth none ['2', '/', '3'] 0 700 = 700 / 3 ∧
    (700 : ℚ) / (700 / 3) = 3 ∧ ¬ ((700 : ℚ) / (700 / 3) = 3 / 2) ∧
    responsiveSize none (some 600) ['1', '/', '3'] = ['1', '/', '1'] ∧
    (700 : ℚ) / calculatedCardWidth none ['1', '/', '1'] 0 700 = 1 ∧
    responsiveSize none (some 800) ['1', '/', '3'] = ['1', '/', '2'] ∧
    (700 : ℚ) / calculatedCardWidth none ['1', '/', '2'] 0 700 = 2 ∧
    responsiveSize (some 300) (some 700) ['1', '/', '3'] = ['1', '/', '3'] ∧
    calculatedCardWidth (some 300) ['2', '/', '3'] 0 700 = 300 := by
  have hsplit23 : (splitOnSlash ['2', '/', '3']).map parseDigits = [some 2, some 3] := by
    decide
  have hsplit11 : (splitOnSlash ['1', '/', '1']).map parseDigits = [some 1, some 1] := by
    decide
  have hsplit12 : (splitOnSlash ['1', '/', '2']).map parseDigits = [some 1, some 2] := by
    decide
  refine ⟨?_, ?_, by norm_num, by norm_num, ?_, ?_, ?_, ?_, rfl, rfl⟩
  · rw [responsiveSize]; norm_num
  · rw [calculatedCardWidth]; norm_num [hsplit23]
  · rw [responsiveSize]; norm_num
  · rw [calculatedCardWidth]; norm_num [hsplit11]
  · rw [responsiveSize]; norm_num
  · rw [calculatedCardWidth]; norm_num [hsplit12]

end ReactCarousel
